import Mathlib

/-! Verification of the Barnacle boot-identity core (Barnacle.c) and the RIoT
X.509 profile encoder (x509bldr.c) against its natural-language
specification.

The C sources are shallowly embedded:
* pure byte manipulation becomes functions on `List Nat` (each element one
  byte value);
* the DER builder calls made by x509bldr.c are recorded as a trace of
  `DerOp` tokens (the builder itself, derenc.c, is not part of the sources;
  per the spec it is a deterministic single-pass encoder, so the call trace
  determines the emitted DER);
* the external cryptographic primitives (SHA-256, SHA-1, ECC key
  derivation, KDF, signing, signature verification, public-key export,
  base64, PEM armoring, the RNG and the flash success flag) are explicitly
  listed by the spec as external collaborators and are modelled as fields
  of a `Prims` record the boot functions are parameterized over;
* the fixed linker-placed records (AgentHdr, AgentCode, FwDeviceId,
  IssuedCerts, FwCache) form an explicit `BarnacleState`; the RAM handoff
  records (CompoundId, CertStore) and the flash writes are returned as an
  explicit outcome record.
-/

set_option maxRecDepth 100000

/-- Modelled from the spec: `BARNACLEMAGIC` is a fixed 32-bit value whose
concrete choice is implementation-defined (it must only differ from
`0x00000000` and `0xFFFFFFFF`); its definition lives in a header that is
not among the sources.  A fixed representative value is used. -/
def BARNACLEMAGIC : Nat := 0x0ABB5C1E

/-- Modelled from the spec: the current agent-header format version bound
checked by the header sniff; defined in a header not among the sources. -/
def BARNACLEVERSION : Nat := 1

/-- Coordinate length of the build-time curve; the spec fixes the default
profile to prime256v1, so `RIOT_COORDMAX` is 32 bytes. -/
def RIOT_COORDMAX : Nat := 32

/-- Modelled from the spec: every TBS carries a 20-byte serial
(`RIOT_X509_SNUM_LEN`); the constant lives in a header not among the
sources. -/
def RIOT_X509_SNUM_LEN : Nat := 20

/-- Modelled from the spec: the keyUsage bit-field is a single byte
`RIOT_X509_KEY_USAGE` whose value lives in a header not among the
sources; a fixed representative byte is used. -/
def RIOT_X509_KEY_USAGE : Nat := 0x04

/-- One DER-builder call, as performed by x509bldr.c.  The builder
(derenc.c) is external to the sources; per spec §4.1 it is a
deterministic encoder driven exactly by this call sequence, so the trace
is a faithful representation of the built object. -/
inductive DerOp where
  | startSeqOrSet (constructed : Bool)
  | startExplicit (tag : Nat)
  | startEnvOctet
  | startEnvBit
  | addOid (oid : List Int)
  | addUtf8 (s : String)
  | addUtcTime (t : String)
  | addInteger (v : Int)
  | addShortExplicitInteger (v : Int)
  | addIntegerFromArray (bytes : List Nat)
  | addBitString (bytes : List Nat)
  | addOctetString (bytes : List Nat)
  | addBoolean (b : Bool)
  | popNesting
deriving DecidableEq

-- OID constants of x509bldr.c (the encoder expects a -1 sentinel).
def riotOID : List Int := [2, 23, 133, 5, 4, 1, -1]

def ecdsaWithSHA256OID : List Int := [1, 2, 840, 10045, 4, 3, 2, -1]

def ecPublicKeyOID : List Int := [1, 2, 840, 10045, 2, 1, -1]

def keyUsageOID : List Int := [2, 5, 29, 15, -1]

def extKeyUsageOID : List Int := [2, 5, 29, 37, -1]

def extAuthKeyIdentifierOID : List Int := [2, 5, 29, 35, -1]

def clientAuthOID : List Int := [1, 3, 6, 1, 5, 5, 7, 3, 2, -1]

def sha256OID : List Int := [2, 16, 840, 1, 101, 3, 4, 2, 1, -1]

def commonNameOID : List Int := [2, 5, 4, 3, -1]

def countryNameOID : List Int := [2, 5, 4, 6, -1]

def orgNameOID : List Int := [2, 5, 4, 10, -1]

def basicConstraintsOID : List Int := [2, 5, 29, 19, -1]

/-- The build-time curve OID; RIOTSECP256R1 (prime256v1) is the default
profile per the spec. -/
def prime256v1OID : List Int := [1, 2, 840, 10045, 3, 1, 7, -1]

def curveOID : List Int := prime256v1OID

/-- The external primitives required by the core (spec §6); the sources
call them but do not define them. -/
structure Prims where
  /-- Primitive `RiotCrypt_Hash`: SHA-256 over a byte range. -/
  hashBytes : List Nat → List Nat
  /-- Primitive `mbedtls_sha1_ret` / `Sha1`. -/
  sha1Bytes : List Nat → List Nat
  /-- Public half of `RiotCrypt_DeriveEccKey` with label "Identity". -/
  deriveEccPub : List Nat → List Nat
  /-- Private half of `RiotCrypt_DeriveEccKey` with label "Identity". -/
  deriveEccPriv : List Nat → List Nat
  /-- Primitive `RiotCrypt_Kdf` with label "Serial", 32 output bytes. -/
  kdf : List Nat → List Nat
  /-- Primitive `RiotCrypt_VerifyDigest digest sigR sigS pub`. -/
  verifyDigest : List Nat → List Nat → List Nat → List Nat → Bool
  /-- Primitive `RiotCrypt_ExportEccPub`: uncompressed-point encoding of a public key. -/
  exportPub : List Nat → List Nat
  /-- The r component of `RiotCrypt_Sign` over the built DER object. -/
  signR : List DerOp → List Nat → List Nat
  /-- The s component of `RiotCrypt_Sign` over the built DER object. -/
  signS : List DerOp → List Nat → List Nat
  /-- Primitive `Base64Encode` of a byte string, as text. -/
  base64 : List Nat → String
  /-- Primitive `DERtoPEM` with label CERT_TYPE: the PEM bytes of the DER object. -/
  pemEncode : List DerOp → List Nat
  /-- Primitive `BarnacleGetRandom`: the CDI seed drawn at provisioning. -/
  rng : List Nat
  /-- Success of `BarnacleFlashPages` (flash hardware reliability). -/
  flashOk : Bool

/-- Record `RIOT_X509_TBS_DATA` of x509bldr.h. -/
structure RIOT_X509_TBS_DATA where
  serialNum : List Nat
  issuerCommon : String
  issuerOrg : String
  issuerCountry : String
  validFrom : String
  validTo : String
  subjectCommon : String
  subjectOrg : String
  subjectCountry : String
deriving DecidableEq

/-- Function `MpiToInt`: write an MPI into a `RIOT_COORDMAX`-byte big-endian
buffer (left-padded with zeros). -/
def mpiToCoord (x : List Nat) : List Nat :=
  List.replicate (RIOT_COORDMAX - x.length) 0 ++ x

/-- Function `GenerateGuidFromSeed`: SHA-256 the seed, base64 the first 16 digest
bytes. -/
def GenerateGuidFromSeed (p : Prims) (seed : List Nat) : String :=
  p.base64 ((p.hashBytes seed).take 16)

/-- Function `X509AddX501Name`: one X.501 name `{CN, C, O}` as emitted by the
source (a SEQUENCE of three SETs, each holding one AttributeTypeAndValue
SEQUENCE). -/
def X509AddX501Name (commonName orgName countryName : String) : List DerOp :=
  [ .startSeqOrSet true,
    .startSeqOrSet false,
    .startSeqOrSet true,
    .addOid commonNameOID,
    .addUtf8 commonName,
    .popNesting,
    .popNesting,
    .startSeqOrSet false,
    .startSeqOrSet true,
    .addOid countryNameOID,
    .addUtf8 countryName,
    .popNesting,
    .popNesting,
    .startSeqOrSet false,
    .startSeqOrSet true,
    .addOid orgNameOID,
    .addUtf8 orgName,
    .popNesting,
    .popNesting,
    .popNesting ]

/-- Function `X509AddExtensions`: the v3 extensions block of the alias
certificate (keyUsage, extendedKeyUsage clientAuth, authKeyIdentifier
over SHA-1 of the DevID public key, and the RIoT extension). -/
def X509AddExtensions (p : Prims) (devIdPub fwid : List Nat) : List DerOp :=
  let authKeyIdentifier := p.sha1Bytes devIdPub
  [ .startExplicit 3,
    .startSeqOrSet true,
    -- keyUsage
    .startSeqOrSet true,
    .addOid keyUsageOID,
    .startEnvOctet,
    .addBitString [RIOT_X509_KEY_USAGE],
    .popNesting,
    .popNesting,
    -- extendedKeyUsage
    .startSeqOrSet true,
    .addOid extKeyUsageOID,
    .startEnvOctet,
    .startSeqOrSet true,
    .addOid clientAuthOID,
    .popNesting,
    .popNesting,
    .popNesting,
    -- authKeyIdentifier
    .startSeqOrSet true,
    .addOid extAuthKeyIdentifierOID,
    .startEnvOctet,
    .startSeqOrSet true,
    .startExplicit 0,
    .addOctetString authKeyIdentifier,
    .popNesting,
    .popNesting,
    .popNesting,
    .popNesting,
    -- RIoT extension
    .startSeqOrSet true,
    .addOid riotOID,
    .startEnvOctet,
    .startSeqOrSet true,
    .addInteger 1,
    .startSeqOrSet true,
    .startSeqOrSet true,
    .addOid ecPublicKeyOID,
    .addOid curveOID,
    .popNesting,
    .addBitString devIdPub,
    .popNesting,
    .startSeqOrSet true,
    .addOid sha256OID,
    .addOctetString fwid,
    .popNesting,
    .popNesting,
    .popNesting,
    .popNesting,
    .popNesting,
    .popNesting ]

/-- Function `X509GetDeviceCertTBS`; `rootKeyPub = none` models a NULL
`RootKeyPub` argument; when non-NULL the authKeyIdentifier extension is
added over SHA-1 of the supplied root public key bytes. -/
def X509GetDeviceCertTBS (p : Prims) (tbsData : RIOT_X509_TBS_DATA)
    (devIdKeyPub : List Nat) (rootKeyPub : Option (List Nat)) : List DerOp :=
  let encBuffer := p.exportPub devIdKeyPub
  let authKeyIdentifier :=
    match rootKeyPub with
    | some r => p.sha1Bytes r
    | none => []
  [ .startSeqOrSet true,
    .addShortExplicitInteger 2,
    .addIntegerFromArray (tbsData.serialNum.take RIOT_X509_SNUM_LEN),
    .startSeqOrSet true,
    .addOid ecdsaWithSHA256OID,
    .popNesting ]
  ++ X509AddX501Name tbsData.issuerCommon tbsData.issuerOrg tbsData.issuerCountry
  ++ [ .startSeqOrSet true,
       .addUtcTime tbsData.validFrom,
       .addUtcTime tbsData.validTo,
       .popNesting ]
  ++ X509AddX501Name tbsData.subjectCommon tbsData.subjectOrg tbsData.subjectCountry
  ++ [ .startSeqOrSet true,
       .startSeqOrSet true,
       .addOid ecPublicKeyOID,
       .addOid curveOID,
       .popNesting,
       .addBitString encBuffer,
       .popNesting,
       .startExplicit 3,
       .startSeqOrSet true,
       -- keyUsage
       .startSeqOrSet true,
       .addOid keyUsageOID,
       .startEnvOctet,
       .addBitString [RIOT_X509_KEY_USAGE],
       .popNesting,
       .popNesting,
       -- basicConstraints, CA=true, pathLen=1
       .startSeqOrSet true,
       .addOid basicConstraintsOID,
       .addBoolean true,
       .startEnvOctet,
       .startSeqOrSet true,
       .addBoolean true,
       .addInteger 1,
       .popNesting,
       .popNesting,
       .popNesting ]
  ++ (match rootKeyPub with
      | some _ =>
        [ DerOp.startSeqOrSet true,
          .addOid extAuthKeyIdentifierOID,
          .startEnvOctet,
          .startSeqOrSet true,
          .startExplicit 0,
          .addOctetString authKeyIdentifier,
          .popNesting,
          .popNesting,
          .popNesting,
          .popNesting ]
      | none => [])
  ++ [ .popNesting,
       .popNesting,
       .popNesting ]

/-- Check `strncmp(SubjectCommon, "*", 1) == 0`: true exactly when the first
character of the subject common name is `*` (an empty C string has a NUL
first byte, which differs from `*`). -/
def firstCharIsStar (s : String) : Bool :=
  match s.data with
  | [] => false
  | c :: _ => c = '*'

/-- Function `X509GetAliasCertTBS`. -/
def X509GetAliasCertTBS (p : Prims) (tbsData : RIOT_X509_TBS_DATA)
    (aliasKeyPub devIdKeyPub fwid : List Nat) : List DerOp :=
  let tbsData :=
    if firstCharIsStar tbsData.subjectCommon then
      { tbsData with
        subjectCommon := GenerateGuidFromSeed p (p.exportPub devIdKeyPub) }
    else tbsData
  [ .startSeqOrSet true,
    .addShortExplicitInteger 2,
    .addIntegerFromArray (tbsData.serialNum.take RIOT_X509_SNUM_LEN),
    .startSeqOrSet true,
    .addOid ecdsaWithSHA256OID,
    .popNesting ]
  ++ X509AddX501Name tbsData.issuerCommon tbsData.issuerOrg tbsData.issuerCountry
  ++ [ .startSeqOrSet true,
       .addUtcTime tbsData.validFrom,
       .addUtcTime tbsData.validTo,
       .popNesting ]
  ++ X509AddX501Name tbsData.subjectCommon tbsData.subjectOrg tbsData.subjectCountry
  ++ [ .startSeqOrSet true,
       .startSeqOrSet true,
       .addOid ecPublicKeyOID,
       .addOid curveOID,
       .popNesting,
       .addBitString (p.exportPub aliasKeyPub),
       .popNesting ]
  ++ X509AddExtensions p (p.exportPub devIdKeyPub) fwid
  ++ [ .popNesting ]

/-- Function `X509GetRootCertTBS`. -/
def X509GetRootCertTBS (p : Prims) (tbsData : RIOT_X509_TBS_DATA)
    (rootKeyPub : List Nat) : List DerOp :=
  [ .startSeqOrSet true,
    .addShortExplicitInteger 2,
    .addIntegerFromArray (tbsData.serialNum.take RIOT_X509_SNUM_LEN),
    .startSeqOrSet true,
    .addOid ecdsaWithSHA256OID,
    .popNesting ]
  ++ X509AddX501Name tbsData.issuerCommon tbsData.issuerOrg tbsData.issuerCountry
  ++ [ .startSeqOrSet true,
       .addUtcTime tbsData.validFrom,
       .addUtcTime tbsData.validTo,
       .popNesting ]
  ++ X509AddX501Name tbsData.subjectCommon tbsData.subjectOrg tbsData.subjectCountry
  ++ [ .startSeqOrSet true,
       .startSeqOrSet true,
       .addOid ecPublicKeyOID,
       .addOid curveOID,
       .popNesting,
       .addBitString (p.exportPub rootKeyPub),
       .popNesting,
       .startExplicit 3,
       .startSeqOrSet true,
       -- keyUsage
       .startSeqOrSet true,
       .addOid keyUsageOID,
       .startEnvOctet,
       .addBitString [RIOT_X509_KEY_USAGE],
       .popNesting,
       .popNesting,
       -- basicConstraints, CA=true, pathLen=2
       .startSeqOrSet true,
       .addOid basicConstraintsOID,
       .addBoolean true,
       .startEnvOctet,
       .startSeqOrSet true,
       .addBoolean true,
       .addInteger 2,
       .popNesting,
       .popNesting,
       .popNesting,
       .popNesting,
       .popNesting,
       .popNesting ]

/-- Functions `X509MakeDeviceCert` / `X509MakeAliasCert` / `X509MakeRootCert` share
this shape: `DERTbsToCert` wraps the TBS in an outer SEQUENCE, then the
signature AlgorithmIdentifier and the BIT STRING holding `SEQUENCE {r, s}`
are appended (each coordinate written into a `RIOT_COORDMAX` buffer). -/
def X509MakeCert (tbs : List DerOp) (sigR sigS : List Nat) : List DerOp :=
  [DerOp.startSeqOrSet true]
  ++ tbs
  ++ [ .startSeqOrSet true,
       .addOid ecdsaWithSHA256OID,
       .popNesting,
       .startEnvBit,
       .startSeqOrSet true,
       .addIntegerFromArray (mpiToCoord sigR),
       .addIntegerFromArray (mpiToCoord sigS),
       .popNesting,
       .popNesting,
       .popNesting ]

/-! Barnacle data model.

The persistent record layouts (`BARNACLE_AGENT_HDR`, `BARNACLE_ISSUED_PUBLIC`,
`BARNACLE_CACHED_DATA`, `BARNACLE_IDENTITY_PRIVATE`, `BARNACLE_CERTSTORE`)
are declared in Barnacle.h, which is not among the sources; their fields are
modelled from the spec's data model (§3) and from the field accesses in
Barnacle.c.
-/

/-- The signable subset of `BARNACLE_AGENT_HDR` (`AgentHdr.s.sign`) plus
the detached signature `{r, s}`. -/
structure AgentHdrRec where
  hdrMagic : Nat
  hdrVersion : Nat
  hdrSize : Nat
  agentName : String
  agentVersion : Nat
  agentIssued : Nat
  agentSize : Nat
  agentDigest : List Nat
  sigR : List Nat
  sigS : List Nat
deriving DecidableEq

/-- Modelled from the spec (§9 signer-structure layout invariant): the
authenticated-boot digest is taken over `AgentHdr.s.sign` as a contiguous
byte range with fixed field order and no padding.  32-bit fields are
serialized little-endian; the name as its character bytes; the digest as
its bytes. -/
def natBytes4 (n : Nat) : List Nat :=
  [n % 256, n / 256 % 256, n / 65536 % 256, n / 16777216 % 256]

/-- The contiguous byte range of `AgentHdr.s.sign` that
`RiotCrypt_Hash(&AgentHdr.s.sign, sizeof(AgentHdr.s.sign))` digests. -/
def signRegionBytes (h : AgentHdrRec) : List Nat :=
  natBytes4 h.hdrMagic ++ natBytes4 h.hdrVersion ++ natBytes4 h.hdrSize
    ++ h.agentName.data.map Char.toNat
    ++ natBytes4 h.agentVersion ++ natBytes4 h.agentIssued
    ++ natBytes4 h.agentSize ++ h.agentDigest

/-- One `{start, size}` certificate-table entry. -/
structure CertEntry where
  start : Nat
  size : Nat
deriving DecidableEq

/-- Record `BARNACLE_IDENTITY_PRIVATE` (`FwDeviceId`, `CompoundId`). -/
structure IdentityRec where
  magic : Nat
  pubKey : List Nat
  privKey : List Nat
deriving DecidableEq

/-- Record `BARNACLE_ISSUED_PUBLIC` (`IssuedCerts`).  The three flag bits of
`info.flags` (`PROVISIONED`, `AUTHENTICATED_BOOT`, `WRITELOCK`, spec §6)
are modelled as booleans; the certTable has the spec's three slots ROOT,
INTERMEDIATE, DEVICE. -/
structure IssuedCertsRec where
  magic : Nat
  provisioned : Bool
  authBoot : Bool
  writeLock : Bool
  codeAuthPubKey : List Nat
  rootEntry : CertEntry
  intermediateEntry : CertEntry
  deviceEntry : CertEntry
  cursor : Nat
  certBag : List Nat
deriving DecidableEq

/-- Record `BARNACLE_CACHED_DATA` (`FwCache`). -/
structure FwCacheRec where
  magic : Nat
  lastIssued : Nat
  lastVersion : Nat
  agentHdrDigest : List Nat
  compoundPubKey : List Nat
  compoundPrivKey : List Nat
  compoundCertSize : Nat
  cert : List Nat
deriving DecidableEq

/-- Record `BARNACLE_CERTSTORE` (`CertStore`), plus an `oob` trace recording any
byte store whose index falls outside the `certBag` array (such a store is
out of bounds in the C original; the model records it instead of writing). -/
structure CertStoreRec where
  magic : Nat
  rootEntry : CertEntry
  deviceEntry : CertEntry
  loaderEntry : CertEntry
  agentEntry : CertEntry
  cursor : Nat
  certBag : List Nat
  oob : List (Nat × Nat)
deriving DecidableEq

/-- Array sizes fixed by Barnacle.h (not among the sources): the byte
capacities of `CertStore.certBag`, `FwCache.cert` and
`IssuedCerts.certBag`. -/
structure Layout where
  certStoreBagLen : Nat
  cacheCertLen : Nat
  issuedBagLen : Nat

/-- The flash- and ROM-resident inputs of a boot. -/
structure BarnacleState where
  agentHdrAddr : Nat
  agentCodeAddr : Nat
  agentHdr : AgentHdrRec
  agentCode : List Nat
  issuedCerts : IssuedCertsRec
  fwDeviceId : IdentityRec
  fwCache : FwCacheRec
deriving DecidableEq

/-- Store one byte into `certBag`; an index at or past the array length is
recorded in `oob` instead (out-of-bounds store in the C original). -/
def bagWrite (cs : CertStoreRec) (i v : Nat) : CertStoreRec :=
  if i < cs.certBag.length then { cs with certBag := cs.certBag.set i v }
  else { cs with oob := cs.oob ++ [(i, v)] }

/-- Copy `memcpy(&certBag[i], bytes, bytes.length)` byte by byte. -/
def bagWriteList (cs : CertStoreRec) (i : Nat) : List Nat → CertStoreRec
  | [] => cs
  | b :: rest => bagWriteList (bagWrite cs i b) (i + 1) rest

/-- Read `len` bytes starting at `start` (out-of-range reads yield 0). -/
def sliceD (l : List Nat) (start len : Nat) : List Nat :=
  (List.range len).map fun i => l.getD (start + i) 0

/-- One cert-bag append during handoff, as in Barnacle.c lines 365-371 /
380-386 / 394-400: copy the PEM bytes to the cursor, fill the table entry,
advance the cursor over the PEM, then store a NUL terminator at the cursor
and advance once more.  Returns the new store and the table entry. -/
def certStoreAppend (cs : CertStoreRec) (bytes : List Nat) :
    CertStoreRec × CertEntry :=
  let entry : CertEntry := { start := cs.cursor, size := bytes.length }
  let cs1 := bagWriteList cs cs.cursor bytes
  let cs2 := { cs1 with cursor := cs1.cursor + bytes.length }
  let cs3 := bagWrite cs2 cs2.cursor 0
  ({ cs3 with cursor := cs3.cursor + 1 }, entry)

/-- Sanitization `digest[0] &= 0x7F; digest[0] |= 0x01` applied to a serial buffer. -/
def sanitizeSerial : List Nat → List Nat
  | [] => []
  | b :: rest => (b &&& 0x7F ||| 0x01) :: rest

/-- The serial placed into the TBS data: the sanitized KDF output,
truncated to the serial field width by the `memcpy` into
`x509TBSData.SerialNum`. -/
def serialFromKdf (p : Prims) (pubKey : List Nat) : List Nat :=
  (sanitizeSerial (p.kdf pubKey)).take RIOT_X509_SNUM_LEN

/-- Helper `BarnacleNullCheck`: the code-authority key region is all zero bytes.
Modelled from the spec (§4.5 step 5: authenticated boot requires
`codeAuthPubKey` non-zero); the helper itself is defined outside the
sources. -/
def nullKey (k : List Nat) : Bool := k.all (· = 0)

/-- The authenticated-boot guard of Barnacle.c lines 217-219. -/
def authBootEnabled (ic : IssuedCertsRec) : Bool :=
  ic.provisioned && ic.authBoot && !nullKey ic.codeAuthPubKey

/-- Write `bytes` into a list starting at index `i` (stores past the end
are dropped, as `List.set` ignores out-of-range indices). -/
def listWriteAt (l : List Nat) (i : Nat) : List Nat → List Nat
  | [] => l
  | b :: rest => listWriteAt (l.set i b) (i + 1) rest

/-! BarnacleInitialProvision. -/

/-- Outcome of `BarnacleInitialProvision`: the returned boolean, the
post-state of the two flash records, the records handed to
`BarnacleFlashPages` (`none` when the respective flash call is never
made), and the serial placed into the device-certificate TBS. -/
structure ProvisionOut where
  result : Bool
  fwDeviceId : IdentityRec
  issuedCerts : IssuedCertsRec
  devIdWrite : Option IdentityRec
  issuedWrite : Option IssuedCertsRec
  usedSerial : Option (List Nat)
deriving DecidableEq

/-- The issued-certs bootstrap branch of `BarnacleInitialProvision`
(lines 87-164): build the self-signed device certificate and the fresh
`IssuedCerts` record to flash.  Returns `none` when `DERtoPEM` overflows
its `sizeof(certBag) - cursor` capacity (cursor is 0 in the fresh
record), which makes the function fail before any `IssuedCerts` flash. -/
def provisionCerts (L : Layout) (p : Prims) (devId : IdentityRec) :
    Option IssuedCertsRec :=
  -- newCertBag = {0}; magic set; certBag all-0xFF except its last byte
  let bag0 := List.replicate (L.issuedBagLen - 1) 0xFF ++ [0]
  let serial := serialFromKdf p devId.pubKey
  let tbsData : RIOT_X509_TBS_DATA :=
    { serialNum := serial,
      issuerCommon := "CyReP Device", issuerOrg := "Microsoft",
      issuerCountry := "US",
      validFrom := "170101000000Z", validTo := "370101000000Z",
      subjectCommon := "CyReP Device", subjectOrg := "Microsoft",
      subjectCountry := "US" }
  -- X509GetDeviceCertTBS(&derCtx, &tbs, &pubKey, (uint8_t*)&pubKey, 1):
  -- the RootKeyPub argument aliases the device public key with length 1,
  -- so it is non-NULL and one byte long.
  let tbs := X509GetDeviceCertTBS p tbsData devId.pubKey
    (some (devId.pubKey.take 1))
  let cert := X509MakeCert tbs (p.signR tbs devId.privKey)
    (p.signS tbs devId.privKey)
  let pem := p.pemEncode cert
  if pem.length > L.issuedBagLen then none
  else
    let bag1 := (listWriteAt bag0 0 pem).set pem.length 0
    some
      { magic := BARNACLEMAGIC, provisioned := false, authBoot := false,
        writeLock := false, codeAuthPubKey := [],
        rootEntry := ⟨0, 0⟩, intermediateEntry := ⟨0, 0⟩,
        deviceEntry := { start := 0, size := pem.length },
        cursor := pem.length + 1, certBag := bag1 }

/-- Function `BarnacleInitialProvision`.  The device-identity branch runs only when
`FwDeviceId.info.magic` differs from `BARNACLEMAGIC`; the cert branch runs
when the identity was just generated (`generateCerts`) or
`IssuedCerts.info.magic` is invalid. -/
def BarnacleInitialProvision (L : Layout) (p : Prims)
    (s : BarnacleState) : ProvisionOut :=
  if s.fwDeviceId.magic ≠ BARNACLEMAGIC then
    let cdi := p.rng
    let newId : IdentityRec :=
      { magic := BARNACLEMAGIC,
        pubKey := p.deriveEccPub cdi, privKey := p.deriveEccPriv cdi }
    if ¬p.flashOk then
      { result := false, fwDeviceId := s.fwDeviceId,
        issuedCerts := s.issuedCerts, devIdWrite := some newId,
        issuedWrite := none, usedSerial := none }
    else
      -- generateCerts = true: the cert branch always runs
      let serial := serialFromKdf p newId.pubKey
      match provisionCerts L p newId with
      | none =>
        { result := false, fwDeviceId := newId,
          issuedCerts := s.issuedCerts, devIdWrite := some newId,
          issuedWrite := none, usedSerial := some serial }
      | some newIssued =>
        if ¬p.flashOk then
          { result := false, fwDeviceId := newId,
            issuedCerts := s.issuedCerts, devIdWrite := some newId,
            issuedWrite := some newIssued, usedSerial := some serial }
        else
          { result := true, fwDeviceId := newId,
            issuedCerts := newIssued, devIdWrite := some newId,
            issuedWrite := some newIssued, usedSerial := some serial }
  else if s.issuedCerts.magic ≠ BARNACLEMAGIC then
    let serial := serialFromKdf p s.fwDeviceId.pubKey
    match provisionCerts L p s.fwDeviceId with
    | none =>
      { result := false, fwDeviceId := s.fwDeviceId,
        issuedCerts := s.issuedCerts, devIdWrite := none,
        issuedWrite := none, usedSerial := some serial }
    | some newIssued =>
      if ¬p.flashOk then
        { result := false, fwDeviceId := s.fwDeviceId,
          issuedCerts := s.issuedCerts, devIdWrite := none,
          issuedWrite := some newIssued, usedSerial := some serial }
      else
        { result := true, fwDeviceId := s.fwDeviceId,
          issuedCerts := newIssued, devIdWrite := none,
          issuedWrite := some newIssued, usedSerial := some serial }
  else
    { result := true, fwDeviceId := s.fwDeviceId,
      issuedCerts := s.issuedCerts, devIdWrite := none,
      issuedWrite := none, usedSerial := none }

/-! BarnacleVerifyAgent. -/

/-- The header digest `d` computed at Barnacle.c lines 207-210: SHA-256
over the contiguous `AgentHdr.s.sign` region. -/
def agentHdrDigestOf (p : Prims) (s : BarnacleState) : List Nat :=
  p.hashBytes (signRegionBytes s.agentHdr)

/-- The compound (alias) public key derived from the header digest. -/
def compoundPubOf (p : Prims) (s : BarnacleState) : List Nat :=
  p.deriveEccPub (agentHdrDigestOf p s)

/-- The compound (alias) private key derived from the header digest. -/
def compoundPrivOf (p : Prims) (s : BarnacleState) : List Nat :=
  p.deriveEccPriv (agentHdrDigestOf p s)

/-- The sanitized serial placed into the alias-certificate TBS data. -/
def aliasSerialOf (p : Prims) (s : BarnacleState) : List Nat :=
  serialFromKdf p (compoundPubOf p s)

/-- The TBS data of the alias certificate (Barnacle.c lines 238-241 and
301): fixed issuer and validity, subject CN the agent name (its org and
country are NULL in the source). -/
def aliasTbsDataOf (p : Prims) (s : BarnacleState) : RIOT_X509_TBS_DATA :=
  { serialNum := aliasSerialOf p s,
    issuerCommon := "CyReP Device", issuerOrg := "Microsoft",
    issuerCountry := "US",
    validFrom := "170101000000Z", validTo := "370101000000Z",
    subjectCommon := s.agentHdr.agentName,
    subjectOrg := "", subjectCountry := "" }

/-- The finalized alias certificate: the TBS built by
`X509GetAliasCertTBS`, signed with `FwDeviceId.info.privKey` and wrapped
by `X509MakeAliasCert`. -/
def aliasCertOf (p : Prims) (s : BarnacleState) : List DerOp :=
  let tbs := X509GetAliasCertTBS p (aliasTbsDataOf p s) (compoundPubOf p s)
    s.fwDeviceId.pubKey s.agentHdr.agentDigest
  X509MakeCert tbs (p.signR tbs s.fwDeviceId.privKey)
    (p.signS tbs s.fwDeviceId.privKey)

/-- The PEM bytes of the alias certificate. -/
def aliasPemOf (p : Prims) (s : BarnacleState) : List Nat :=
  p.pemEncode (aliasCertOf p s)


/-- Outcome of `BarnacleVerifyAgent`: the returned boolean, whether the
`FwCache` flash write happened, the post-state of `FwCache`, the RAM
handoff records (`none` if control never reached the handoff), the
serial placed into the alias-certificate TBS, and whether the two
rollback warnings were printed. -/
structure VerifyOut where
  result : Bool
  flashed : Bool
  fwCache : FwCacheRec
  compoundId : Option IdentityRec
  certStore : Option CertStoreRec
  usedSerial : Option (List Nat)
  warnedVersion : Bool
  warnedIssued : Bool
deriving DecidableEq

/-- A failure exit of `BarnacleVerifyAgent` (`result = false`, no flash
write, handoff RAM untouched). -/
def vFail (cache : FwCacheRec) (warnV warnI : Bool)
    (serial : Option (List Nat)) : VerifyOut :=
  { result := false, flashed := false, fwCache := cache,
    compoundId := none, certStore := none, usedSerial := serial,
    warnedVersion := warnV, warnedIssued := warnI }

/-- The handoff tail of `BarnacleVerifyAgent` (lines 349-403): populate
`CompoundId` from the (possibly just flashed) `FwCache`, zero `CertStore`,
then append the root PEM (if provisioned and present), the device PEM and
the cached loader PEM.  Each of the three capacity checks jumps to
`Cleanup` on overflow, but — exactly as in the source — `result` is not
set to `false` there, so the function still returns `true` with a
partially assembled store. -/
def barnacleHandoff (L : Layout) (ic : IssuedCertsRec)
    (cache : FwCacheRec) (flashed : Bool) (warnV warnI : Bool)
    (serial : Option (List Nat)) : VerifyOut :=
  let compound : IdentityRec :=
    { magic := BARNACLEMAGIC, pubKey := cache.compoundPubKey,
      privKey := cache.compoundPrivKey }
  let out : CertStoreRec → VerifyOut := fun cs =>
    { result := true, flashed := flashed, fwCache := cache,
      compoundId := some compound, certStore := some cs,
      usedSerial := serial, warnedVersion := warnV, warnedIssued := warnI }
  let cs0 : CertStoreRec :=
    { magic := BARNACLEMAGIC, rootEntry := ⟨0, 0⟩, deviceEntry := ⟨0, 0⟩,
      loaderEntry := ⟨0, 0⟩, agentEntry := ⟨0, 0⟩, cursor := 0,
      certBag := List.replicate L.certStoreBagLen 0, oob := [] }
  if cs0.cursor + ic.rootEntry.size > L.certStoreBagLen then out cs0
  else
    let cs1 :=
      if ic.provisioned ∧ ic.rootEntry.size ≠ 0 then
        let (cs, e) := certStoreAppend cs0
          (sliceD ic.certBag ic.rootEntry.start ic.rootEntry.size)
        { cs with rootEntry := e }
      else cs0
    if cs1.cursor + ic.deviceEntry.size > L.certStoreBagLen then out cs1
    else
      let (cs2', e2) := certStoreAppend cs1
        (sliceD ic.certBag ic.deviceEntry.start ic.deviceEntry.size)
      let cs2 := { cs2' with deviceEntry := e2 }
      if cs2.cursor + cache.compoundCertSize > L.certStoreBagLen then out cs2
      else
        let (cs3, e3) := certStoreAppend cs2
          (sliceD cache.cert 0 cache.compoundCertSize)
        out { cs3 with loaderEntry := e3 }

/-- Function `BarnacleVerifyAgent` (lines 170-404): header sniff, layout check,
agent-code digest check, header digest, optional authenticated-boot
signature check, rollback warnings, compound-key derivation with alias
certificate minting and `FwCache` flash on a cache miss, then the
handoff. -/
def BarnacleVerifyAgent (L : Layout) (p : Prims) (s : BarnacleState) :
    VerifyOut :=
  if ¬(s.agentHdr.hdrMagic = BARNACLEMAGIC ∧
       s.agentHdr.hdrVersion ≤ BARNACLEVERSION) then
    vFail s.fwCache false false none
  else if s.agentCodeAddr ≠ s.agentHdrAddr + s.agentHdr.hdrSize then
    vFail s.fwCache false false none
  else if p.hashBytes (s.agentCode.take s.agentHdr.agentSize) ≠
      s.agentHdr.agentDigest then
    vFail s.fwCache false false none
  else
    let d := p.hashBytes (signRegionBytes s.agentHdr)
    if authBootEnabled s.issuedCerts = true ∧
       p.verifyDigest d s.agentHdr.sigR s.agentHdr.sigS
         s.issuedCerts.codeAuthPubKey = false then
      vFail s.fwCache false false none
    else if s.fwCache.magic ≠ BARNACLEMAGIC ∨
        d ≠ s.fwCache.agentHdrDigest then
      -- first launch, or first launch after an update
      let warnV : Bool := decide (s.fwCache.magic = BARNACLEMAGIC ∧
        s.fwCache.lastVersion ≥ s.agentHdr.agentVersion)
      let warnI : Bool := decide (s.fwCache.magic = BARNACLEMAGIC ∧
        s.fwCache.lastIssued ≥ s.agentHdr.agentIssued)
      let serial := aliasSerialOf p s
      let pem := aliasPemOf p s
      -- DERtoPEM capacity is sizeof(cache.cert)
      if pem.length > L.cacheCertLen then
        vFail s.fwCache warnV warnI (some serial)
      else
        let certArr :=
          (listWriteAt (List.replicate L.cacheCertLen 0xFF) 0 pem).set
            pem.length 0
        let cache : FwCacheRec :=
          { magic := BARNACLEMAGIC,
            lastIssued := s.agentHdr.agentIssued,
            lastVersion := s.agentHdr.agentVersion,
            agentHdrDigest := d,
            compoundPubKey := compoundPubOf p s,
            compoundPrivKey := compoundPrivOf p s,
            compoundCertSize := pem.length, cert := certArr }
        if ¬p.flashOk then vFail s.fwCache warnV warnI (some serial)
        else barnacleHandoff L s.issuedCerts cache true warnV warnI
          (some serial)
    else
      barnacleHandoff L s.issuedCerts s.fwCache false false false none

/-! BarnacleGetDfuStr. -/

/-- Format `%02u` of a number that fits two digits. -/
def dec2 (n : Nat) : String :=
  if n < 10 then "0" ++ toString n else toString n

/-- Format `%08x`: lowercase hexadecimal, zero-padded to eight digits. -/
def hex8 (n : Nat) : String :=
  let s := (Nat.toDigits 16 (n % 2 ^ 32)).asString
  ⟨List.replicate (8 - s.length) '0'⟩ ++ s

/-- The iteration counts taken by the `while(agentArea > 0)` loop of
`BarnacleGetDfuStr`: `MIN(agentArea, 99)` pages per group. -/
def dfuGroups (n : Nat) : List Nat :=
  if h : n = 0 then []
  else
    have : n - min n 99 < n := by omega
    min n 99 :: dfuGroups (n - min n 99)
termination_by n

/-- Function `BarnacleGetDfuStr`: `agentArea` is the unsigned 32-bit pointer
difference between `IssuedCerts` and `AgentHdr` divided by 4096; the
groups are printed as `NN*004Kf,`, and the final `IssuedCerts` page as
`01*04Ka` (readonly) when the WRITELOCK flag is set, else `01*04Kg`. -/
def BarnacleGetDfuStr (agentHdrAddr issuedCertsAddr : Nat)
    (writeLock : Bool) : String :=
  let agentArea := ((issuedCertsAddr + 2 ^ 32 - agentHdrAddr % 2 ^ 32) %
    2 ^ 32) / 4096
  "@Barnacle /0x" ++ hex8 agentHdrAddr ++ "/"
    ++ String.join ((dfuGroups agentArea).map fun it =>
        dec2 it ++ "*004Kf,")
    ++ "01*04K" ++ (if writeLock then "a" else "g")

/-! Trace inspection.

Helpers to read structure off a DER call trace: the v3 extensions block
(the region enclosed by the `[3] EXPLICIT` wrapper) and the common names
appearing in X.501 names.
-/

/-- Does this builder call open a nesting frame? -/
def DerOp.opens : DerOp → Bool
  | .startSeqOrSet _ => true
  | .startExplicit _ => true
  | .startEnvOctet => true
  | .startEnvBit => true
  | _ => false

/-- The ops strictly inside an already-open frame: consume until the
matching `popNesting` at relative depth 0 (which is dropped). -/
def takeBalanced : List DerOp → Nat → List DerOp
  | [], _ => []
  | op :: rest, d =>
    if op = .popNesting then
      if d = 0 then [] else op :: takeBalanced rest (d - 1)
    else if op.opens then op :: takeBalanced rest (d + 1)
    else op :: takeBalanced rest d

/-- The contents of the v3 extensions block: everything between the first
`[3] EXPLICIT` wrapper and its matching pop. -/
def extBlock : List DerOp → List DerOp
  | [] => []
  | .startExplicit 3 :: rest => takeBalanced rest 0
  | _ :: rest => extBlock rest

/-- The common-name strings of a trace, in order: every UTF-8 string
immediately preceded by the commonName OID. -/
def cnList : List DerOp → List String
  | .addOid o :: .addUtf8 s :: rest =>
    if o = commonNameOID then s :: cnList rest else cnList rest
  | _ :: rest => cnList rest
  | [] => []

/-- Does a trace region mention the basicConstraints OID? -/
def mentionsBasicConstraints : List DerOp → Bool
  | [] => false
  | .addOid o :: rest =>
    if o = basicConstraintsOID then true else mentionsBasicConstraints rest
  | _ :: rest => mentionsBasicConstraints rest

/-! Extension composition per the spec (§4.3 extension table).

These definitions follow the spec's words, for comparison against the
blocks the source-derived builders emit: "keyUsage bit field value is a
single byte RIOT_X509_KEY_USAGE", "authKeyId contents are SHA-1 of the
encoded issuer public key, wrapped as [0] OCTET STRING", basicConstraints
CA=true with the tabulated pathLen, extKeyUsage clientAuth, and the RIoT
extension carrying the DevID public key and the FWID under OID
2.23.133.5.4.1.
-/

/-- Spec: the keyUsage extension, a single-byte BIT STRING inside an
OCTET STRING wrapper. -/
def specKeyUsageExt : List DerOp :=
  [ .startSeqOrSet true,
    .addOid keyUsageOID,
    .startEnvOctet,
    .addBitString [RIOT_X509_KEY_USAGE],
    .popNesting,
    .popNesting ]

/-- Spec: the extendedKeyUsage extension holding exactly clientAuth. -/
def specExtKeyUsageClientAuth : List DerOp :=
  [ .startSeqOrSet true,
    .addOid extKeyUsageOID,
    .startEnvOctet,
    .startSeqOrSet true,
    .addOid clientAuthOID,
    .popNesting,
    .popNesting,
    .popNesting ]

/-- Spec: the authorityKeyIdentifier extension, the 20-byte key id
wrapped as `[0] OCTET STRING`. -/
def specAuthKeyIdExt (keyId : List Nat) : List DerOp :=
  [ .startSeqOrSet true,
    .addOid extAuthKeyIdentifierOID,
    .startEnvOctet,
    .startSeqOrSet true,
    .startExplicit 0,
    .addOctetString keyId,
    .popNesting,
    .popNesting,
    .popNesting,
    .popNesting ]

/-- Spec: the basicConstraints extension, critical, CA=true, with the
given path length. -/
def specBasicConstraintsExt (pathLen : Int) : List DerOp :=
  [ .startSeqOrSet true,
    .addOid basicConstraintsOID,
    .addBoolean true,
    .startEnvOctet,
    .startSeqOrSet true,
    .addBoolean true,
    .addInteger pathLen,
    .popNesting,
    .popNesting,
    .popNesting ]

/-- Spec: the RIoT extension under OID 2.23.133.5.4.1, carrying version
1, the DevID SubjectPublicKeyInfo, and the FWID under the sha256 OID. -/
def specRiotExt (devIdPub fwid : List Nat) : List DerOp :=
  [ .startSeqOrSet true,
    .addOid riotOID,
    .startEnvOctet,
    .startSeqOrSet true,
    .addInteger 1,
    .startSeqOrSet true,
    .startSeqOrSet true,
    .addOid ecPublicKeyOID,
    .addOid curveOID,
    .popNesting,
    .addBitString devIdPub,
    .popNesting,
    .startSeqOrSet true,
    .addOid sha256OID,
    .addOctetString fwid,
    .popNesting,
    .popNesting,
    .popNesting,
    .popNesting ]

/-! Concrete instantiation.

A small concrete primitive assignment, layout and boot states, used to
evaluate the model on closed inputs.
-/

/-- A concrete, executable assignment of the external primitives. -/
def P0 : Prims :=
  { hashBytes := fun l => [l.length % 256, l.sum % 256],
    sha1Bytes := fun l => [l.length % 256],
    deriveEccPub := fun s => 1 :: s.take 2,
    deriveEccPriv := fun s => 2 :: s.take 2,
    kdf := fun k => 128 :: k.take 2,
    verifyDigest := fun _ _ _ _ => true,
    exportPub := fun k => 4 :: k,
    signR := fun _ _ => [3],
    signS := fun _ _ => [4],
    base64 := fun _ => "g",
    pemEncode := fun ops => List.replicate (min ops.length 4) 65,
    rng := [7, 7],
    flashOk := true }

/-- A concrete layout. -/
def L0 : Layout :=
  { certStoreBagLen := 16, cacheCertLen := 8, issuedBagLen := 16 }

/-- A well-formed agent header for code `[5]` under `P0`. -/
def hdr0 : AgentHdrRec :=
  { hdrMagic := BARNACLEMAGIC, hdrVersion := 1, hdrSize := 8,
    agentName := "A", agentVersion := 2, agentIssued := 2, agentSize := 1,
    agentDigest := P0.hashBytes [5], sigR := [9], sigS := [9] }

/-- A boot state that verifies under `P0` with authenticated boot
disabled and a cold `FwCache`. -/
def s0 : BarnacleState :=
  { agentHdrAddr := 0, agentCodeAddr := 8, agentHdr := hdr0,
    agentCode := [5],
    issuedCerts :=
      { magic := BARNACLEMAGIC, provisioned := false, authBoot := false,
        writeLock := false, codeAuthPubKey := [0, 0],
        rootEntry := ⟨0, 0⟩, intermediateEntry := ⟨0, 0⟩,
        deviceEntry := ⟨0, 3⟩, cursor := 4,
        certBag := [65, 66, 67, 0, 255, 255, 255, 255] },
    fwDeviceId := { magic := BARNACLEMAGIC, pubKey := [11], privKey := [12] },
    fwCache :=
      { magic := 0, lastIssued := 0, lastVersion := 0,
        agentHdrDigest := [], compoundPubKey := [13],
        compoundPrivKey := [14], compoundCertSize := 0, cert := [] } }

/-- A warm `FwCache` matching `hdr0` under `P0` (same agent as cached:
digest, version and issuance all equal). -/
def cacheWarm : FwCacheRec :=
  { magic := BARNACLEMAGIC, lastIssued := 2, lastVersion := 2,
    agentHdrDigest := P0.hashBytes (signRegionBytes hdr0),
    compoundPubKey := [13], compoundPrivKey := [14],
    compoundCertSize := 2, cert := [71, 72] }

/-- A warm boot state: `s0` with the matching cache.  Verifies under
`P0` without any flash write. -/
def sWarm : BarnacleState := { s0 with fwCache := cacheWarm }

/-- The header of `sWarm` with a single byte of the sign region changed:
the first character of `agent.name` is `B` instead of `A`. -/
def hdrFlipped : AgentHdrRec := { hdr0 with agentName := "B" }

/-- The warm boot state with the one-byte name flip applied. -/
def sFlipped : BarnacleState := { sWarm with agentHdr := hdrFlipped }

/-- The warm state with an `IssuedCerts` root-table entry larger than
`sizeof(CertStore.certBag)`, driving the first handoff capacity check
into its overflow exit. -/
def sC2 : BarnacleState :=
  { sWarm with issuedCerts :=
      { sWarm.issuedCerts with rootEntry := ⟨0, 100⟩ } }

/-- The warm state with a device PEM that exactly fills
`CertStore.certBag`: the capacity check `cursor + size > sizeof` passes
at equality, and the NUL terminator lands one byte past the array. -/
def sC3 : BarnacleState :=
  { sWarm with issuedCerts :=
      { sWarm.issuedCerts with deviceEntry := ⟨0, 16⟩ } }

/-- The warm state with one agent-code byte changed (code `[6]` instead
of `[5]`), so the code digest no longer matches the header. -/
def sBadCode : BarnacleState := { sWarm with agentCode := [6] }

/-- The warm state with authenticated boot provisioned and enabled and a
non-zero code-authority key. -/
def sAuth : BarnacleState :=
  { sWarm with issuedCerts :=
      { sWarm.issuedCerts with
        provisioned := true, authBoot := true,
        codeAuthPubKey := [1, 0] } }

/-- The primitives `P0` with a signature verifier that rejects. -/
def P1 : Prims := { P0 with verifyDigest := fun _ _ _ _ => false }

/-- A first-boot state: no device identity provisioned yet. -/
def sCold : BarnacleState :=
  { s0 with fwDeviceId := { magic := 0, pubKey := [11], privKey := [12] } }

/-- A warm state whose cached agent is *newer* than the one presented
(rollback) while the header digest differs from the cached digest. -/
def sRoll : BarnacleState :=
  { s0 with fwCache :=
      { magic := BARNACLEMAGIC, lastIssued := 5, lastVersion := 5,
        agentHdrDigest := [9, 9], compoundPubKey := [13],
        compoundPrivKey := [14], compoundCertSize := 2,
        cert := [71, 72] } }

/-- The record `BarnacleInitialProvision` hands to `BarnacleFlashPages`
for the `FwDeviceId` region on a cold boot under `P0`. -/
def devIdW : IdentityRec :=
  { magic := BARNACLEMAGIC, pubKey := P0.deriveEccPub P0.rng,
    privKey := P0.deriveEccPriv P0.rng }

/-- An empty certificate store with a 16-byte bag, for exercising one
append. -/
def csW : CertStoreRec :=
  { magic := BARNACLEMAGIC, rootEntry := ⟨0, 0⟩, deviceEntry := ⟨0, 0⟩,
    loaderEntry := ⟨0, 0⟩, agentEntry := ⟨0, 0⟩, cursor := 0,
    certBag := List.replicate 16 0, oob := [] }

/-- A concrete TBS data record. -/
def tdW : RIOT_X509_TBS_DATA :=
  { serialNum := [1], issuerCommon := "CyReP Device",
    issuerOrg := "Microsoft", issuerCountry := "US",
    validFrom := "170101000000Z", validTo := "370101000000Z",
    subjectCommon := "CyReP Device", subjectOrg := "Microsoft",
    subjectCountry := "US" }

/-!
Helper lemmas about the handoff, the serial sanitization, and the
cert-bag writes.
-/

/-- The handoff always leaves `result` at `true`, including its three
overflow exits. -/
theorem handoff_result (L : Layout) (ic : IssuedCertsRec) (cache : FwCacheRec)
    (fl wv wi : Bool) (ser : Option (List Nat)) :
    (barnacleHandoff L ic cache fl wv wi ser).result = true := by
  unfold barnacleHandoff
  dsimp only
  repeat' split
  all_goals rfl

/-- The handoff does not change whether a flash write happened. -/
theorem handoff_flashed (L : Layout) (ic : IssuedCertsRec) (cache : FwCacheRec)
    (fl wv wi : Bool) (ser : Option (List Nat)) :
    (barnacleHandoff L ic cache fl wv wi ser).flashed = fl := by
  unfold barnacleHandoff
  dsimp only
  repeat' split
  all_goals rfl

/-- The handoff reports the cache it was given. -/
theorem handoff_fwCache (L : Layout) (ic : IssuedCertsRec) (cache : FwCacheRec)
    (fl wv wi : Bool) (ser : Option (List Nat)) :
    (barnacleHandoff L ic cache fl wv wi ser).fwCache = cache := by
  unfold barnacleHandoff
  dsimp only
  repeat' split
  all_goals rfl

/-- The handoff passes the serial through. -/
theorem handoff_usedSerial (L : Layout) (ic : IssuedCertsRec)
    (cache : FwCacheRec) (fl wv wi : Bool) (ser : Option (List Nat)) :
    (barnacleHandoff L ic cache fl wv wi ser).usedSerial = ser := by
  unfold barnacleHandoff
  dsimp only
  repeat' split
  all_goals rfl

/-- The handoff passes the version warning through. -/
theorem handoff_warnedV (L : Layout) (ic : IssuedCertsRec) (cache : FwCacheRec)
    (fl wv wi : Bool) (ser : Option (List Nat)) :
    (barnacleHandoff L ic cache fl wv wi ser).warnedVersion = wv := by
  unfold barnacleHandoff
  dsimp only
  repeat' split
  all_goals rfl

/-- The handoff passes the issuance warning through. -/
theorem handoff_warnedI (L : Layout) (ic : IssuedCertsRec) (cache : FwCacheRec)
    (fl wv wi : Bool) (ser : Option (List Nat)) :
    (barnacleHandoff L ic cache fl wv wi ser).warnedIssued = wi := by
  unfold barnacleHandoff
  dsimp only
  repeat' split
  all_goals rfl

/-- Serial sanitization clears bit 7 for any input byte. -/
theorem sanitized_and_128 (x : Nat) : (x &&& 127 ||| 1) &&& 128 = 0 := by
  apply Nat.eq_of_testBit_eq
  intro i
  simp only [Nat.testBit_and, Nat.testBit_or, Nat.zero_testBit]
  by_cases h : i = 7
  · subst h
    simp [show Nat.testBit 127 7 = false by decide,
          show Nat.testBit 1 7 = false by decide]
  · have h128 : Nat.testBit 128 i = false := by
      have he : (128 : Nat) = 2 ^ 7 := by norm_num
      rw [he, Nat.testBit_two_pow]
      simpa using fun hh => h hh.symm
    simp [h128]

/-- Serial sanitization sets bit 0 for any input byte. -/
theorem sanitized_and_1 (x : Nat) : (x &&& 127 ||| 1) &&& 1 = 1 := by
  apply Nat.eq_of_testBit_eq
  intro i
  simp only [Nat.testBit_and, Nat.testBit_or]
  by_cases h : i = 0
  · subst h
    simp [show Nat.testBit 127 0 = true by decide,
          show Nat.testBit 1 0 = true by decide]
  · have h1 : Nat.testBit 1 i = false := by
      have he : (1 : Nat) = 2 ^ 0 := by norm_num
      rw [he, Nat.testBit_two_pow]
      simpa using fun hh => h hh.symm
    simp [h1]

/-- The first byte of any serial produced by `serialFromKdf` has bit 7
clear and bit 0 set. -/
theorem serialFromKdf_head (p : Prims) (k : List Nat) (b : Nat)
    (h : (serialFromKdf p k).head? = some b) :
    b &&& 0x80 = 0 ∧ b &&& 0x01 = 1 := by
  unfold serialFromKdf at h
  cases hk : p.kdf k with
  | nil => rw [hk] at h; simp [sanitizeSerial] at h
  | cons b0 rest =>
    rw [hk] at h
    simp only [sanitizeSerial, RIOT_X509_SNUM_LEN, List.take_succ_cons,
      List.head?_cons, Option.some.injEq] at h
    subst h
    exact ⟨sanitized_and_128 b0, sanitized_and_1 b0⟩

/-- Every serial `BarnacleVerifyAgent` places into a TBS is the alias
serial of the boot state. -/
theorem verify_usedSerial (L : Layout) (p : Prims) (s : BarnacleState)
    (sn : List Nat)
    (h : (BarnacleVerifyAgent L p s).usedSerial = some sn) :
    sn = aliasSerialOf p s := by
  unfold BarnacleVerifyAgent at h
  dsimp only at h
  repeat' split at h
  all_goals simp [vFail, handoff_usedSerial] at h
  all_goals exact h.symm

/-- Every serial `BarnacleInitialProvision` places into a TBS comes from
`serialFromKdf`. -/
theorem provision_usedSerial (L : Layout) (p : Prims) (s : BarnacleState)
    (sn : List Nat)
    (h : (BarnacleInitialProvision L p s).usedSerial = some sn) :
    ∃ k, sn = serialFromKdf p k := by
  unfold BarnacleInitialProvision at h
  dsimp only at h
  repeat' split at h
  all_goals simp at h
  all_goals exact ⟨_, h.symm⟩

/-- An in-bounds byte store into the cert bag preserves its length, the
out-of-bounds trace and the cursor. -/
theorem bagWrite_inbounds (cs : CertStoreRec) (i v : Nat)
    (h : i < cs.certBag.length) :
    (bagWrite cs i v).certBag.length = cs.certBag.length ∧
    (bagWrite cs i v).oob = cs.oob ∧
    (bagWrite cs i v).cursor = cs.cursor := by
  unfold bagWrite
  rw [if_pos h]
  simp

/-- An in-bounds block copy into the cert bag preserves its length, the
out-of-bounds trace and the cursor. -/
theorem bagWriteList_inbounds (bytes : List Nat) :
    ∀ (cs : CertStoreRec) (i : Nat),
    i + bytes.length ≤ cs.certBag.length →
    (bagWriteList cs i bytes).certBag.length = cs.certBag.length ∧
    (bagWriteList cs i bytes).oob = cs.oob ∧
    (bagWriteList cs i bytes).cursor = cs.cursor := by
  induction bytes with
  | nil => intro cs i h; exact ⟨rfl, rfl, rfl⟩
  | cons b rest ih =>
    intro cs i h
    have hi : i < cs.certBag.length := by
      simp [List.length_cons] at h
      omega
    have hb := bagWrite_inbounds cs i b hi
    have hrec := ih (bagWrite cs i b) (i + 1)
      (by rw [hb.1]; simp [List.length_cons] at h; omega)
    unfold bagWriteList
    refine ⟨?_, ?_, ?_⟩
    · rw [hrec.1, hb.1]
    · rw [hrec.2.1, hb.2.1]
    · rw [hrec.2.2, hb.2.2]

/-- The group list of the DFU string covers the agent area exactly. -/
theorem dfuGroups_sum (n : Nat) : (dfuGroups n).sum = n := by
  induction n using Nat.strong_induction_on with
  | _ n ih =>
    rw [dfuGroups]
    split
    · simp [*]
    · rename_i h
      rw [List.sum_cons, ih (n - min n 99) (by omega)]
      omega

/-- Every group of the DFU string holds between 1 and 99 pages. -/
theorem dfuGroups_bounds (n : Nat) :
    ∀ g ∈ dfuGroups n, 0 < g ∧ g ≤ 99 := by
  induction n using Nat.strong_induction_on with
  | _ n ih =>
    rw [dfuGroups]
    split
    · simp
    · rename_i h
      intro g hg
      rcases List.mem_cons.mp hg with hg | hg
      · subst hg; constructor <;> omega
      · exact ih (n - min n 99) (by omega) g hg

/-!
Claim theorems.
-/

/-- C1 (counterexample): with authenticated boot disabled, a single-byte
modification of the `AgentHdr.sign` region — the first byte of
`agent.name`, `A` changed to `B` relative to the warm image `sWarm`,
which verifies — does not make `BarnacleVerifyAgent` fail: it still
returns `true` and even performs a `FwCache` flash write, refuting the
claim for the sign region in the authenticated-boot-disabled
configuration. -/
theorem c1_integrity_gate_counterexample :
    authBootEnabled sWarm.issuedCerts = false ∧
    (BarnacleVerifyAgent L0 P0 sWarm).result = true ∧
    (BarnacleVerifyAgent L0 P0 sWarm).flashed = false ∧
    sFlipped = { sWarm with agentHdr := { hdr0 with agentName := "B" } } ∧
    (BarnacleVerifyAgent L0 P0 sFlipped).result = true ∧
    (BarnacleVerifyAgent L0 P0 sFlipped).flashed = true := by
  refine ⟨by decide, by decide, by decide, rfl, by decide, by decide⟩

/-- C1 (amended): a modification of `AgentCode` whose digest no longer
matches `AgentHdr.agent.digest` makes `BarnacleVerifyAgent` fail before
any flash mutation, in every configuration of `IssuedCerts.flags`; a
modification of the `AgentHdr.sign` region is guaranteed to fail before
any flash mutation when authenticated boot is enabled (PROVISIONED and
AUTHENTICATED_BOOT flags set, `codeAuthPubKey` non-zero) and the ECDSA
check rejects the modified header digest.  (With authenticated boot
disabled, a sign-region flip confined to `agent.name`, `agent.version` or
`agent.issued` is not detected — see the counterexample.) -/
theorem c1_integrity_gate (L : Layout) (p : Prims) (s : BarnacleState) :
    (p.hashBytes (s.agentCode.take s.agentHdr.agentSize) ≠
        s.agentHdr.agentDigest →
      (BarnacleVerifyAgent L p s).result = false ∧
      (BarnacleVerifyAgent L p s).flashed = false) ∧
    (authBootEnabled s.issuedCerts = true →
      p.verifyDigest (agentHdrDigestOf p s) s.agentHdr.sigR s.agentHdr.sigS
        s.issuedCerts.codeAuthPubKey = false →
      (BarnacleVerifyAgent L p s).result = false ∧
      (BarnacleVerifyAgent L p s).flashed = false) := by
  constructor
  · intro h
    unfold BarnacleVerifyAgent
    dsimp only
    repeat' split
    all_goals first | exact ⟨rfl, rfl⟩ | simp_all [agentHdrDigestOf]
  · intro ha hv
    unfold BarnacleVerifyAgent
    dsimp only
    repeat' split
    all_goals first | exact ⟨rfl, rfl⟩ | simp_all [agentHdrDigestOf]

/-- C1 (witness): the amended theorem applied at a tampered-code state
(`sBadCode`, code digest mismatch, flags all clear) and at an
authenticated-boot state whose signature check rejects (`sAuth` under
`P1`). -/
theorem c1_integrity_gate_witness :
    (P0.hashBytes (sBadCode.agentCode.take sBadCode.agentHdr.agentSize) ≠
        sBadCode.agentHdr.agentDigest ∧
      (BarnacleVerifyAgent L0 P0 sBadCode).result = false ∧
      (BarnacleVerifyAgent L0 P0 sBadCode).flashed = false) ∧
    (authBootEnabled sAuth.issuedCerts = true ∧
      P1.verifyDigest (agentHdrDigestOf P1 sAuth) sAuth.agentHdr.sigR
        sAuth.agentHdr.sigS sAuth.issuedCerts.codeAuthPubKey = false ∧
      (BarnacleVerifyAgent L0 P1 sAuth).result = false ∧
      (BarnacleVerifyAgent L0 P1 sAuth).flashed = false) :=
  ⟨⟨by decide, (c1_integrity_gate L0 P0 sBadCode).1 (by decide)⟩,
   ⟨by decide, by decide,
    (c1_integrity_gate L0 P1 sAuth).2 (by decide) (by decide)⟩⟩

/-- C2 (code bug): when the first handoff capacity check fails
(`cursor + rootEntry.size > sizeof(CertStore.certBag)`),
`BarnacleVerifyAgent` prints an error and jumps to `Cleanup`, but
`result` is never set to `false` there, so the function returns `true`
with a partially assembled store (no device or loader PEM appended) —
the boot is not aborted, contradicting the claim and spec §7. -/
theorem c2_certstore_overflow_returns_true :
    sC2.issuedCerts.rootEntry.size > L0.certStoreBagLen ∧
    (BarnacleVerifyAgent L0 P0 sC2).result = true ∧
    ((BarnacleVerifyAgent L0 P0 sC2).certStore.map fun cs =>
      (cs.deviceEntry.size, cs.loaderEntry.size, cs.cursor)) =
      some (0, 0, 0) := by
  decide

/-- C3 (counterexample): at `sC3` the device-append capacity check
passes at equality (`0 + 16 ≤ 16 = sizeof(certBag)`), yet the append
stores the NUL terminator at index 16 — one byte past the array — and
leaves the cursor at 17 > sizeof, refuting the claim at its boundary
case. -/
theorem c3_append_bounds_counterexample :
    ¬(0 + sC3.issuedCerts.deviceEntry.size > L0.certStoreBagLen) ∧
    ((BarnacleVerifyAgent L0 P0 sC3).certStore.map fun cs =>
      (cs.oob, cs.cursor)) = some ([(16, 0)], 17) ∧
    17 > L0.certStoreBagLen := by
  decide

/-- C3 (amended): if an append starts at a cursor with
`cursor + size < sizeof(certBag)` (strictly, i.e. the source's check
passes with room for the terminator), then every byte the append writes
— the PEM bytes and the NUL terminator — lies within `certBag` (the
out-of-bounds trace is unchanged), and afterwards
`cursor = old + size + 1 ≤ sizeof(certBag)`. -/
theorem c3_append_bounds (cs : CertStoreRec) (bytes : List Nat)
    (h : cs.cursor + bytes.length < cs.certBag.length) :
    (certStoreAppend cs bytes).1.oob = cs.oob ∧
    (certStoreAppend cs bytes).1.cursor = cs.cursor + bytes.length + 1 ∧
    (certStoreAppend cs bytes).1.cursor ≤ cs.certBag.length ∧
    (certStoreAppend cs bytes).1.certBag.length = cs.certBag.length := by
  unfold certStoreAppend
  dsimp only
  have h1 := bagWriteList_inbounds bytes cs cs.cursor (by omega)
  have h2 : (bagWriteList cs cs.cursor bytes).cursor + bytes.length <
      (bagWriteList cs cs.cursor bytes).certBag.length := by
    rw [h1.1, h1.2.2]; omega
  have h3 := bagWrite_inbounds
    { bagWriteList cs cs.cursor bytes with
      cursor := (bagWriteList cs cs.cursor bytes).cursor + bytes.length }
    ((bagWriteList cs cs.cursor bytes).cursor + bytes.length) 0
    (by simpa using h2)
  simp only at h3
  refine ⟨?_, ?_, ?_, ?_⟩
  · rw [h3.2.1, h1.2.1]
  · rw [h3.2.2, h1.2.2]
  · rw [h3.2.2, h1.2.2]; omega
  · rw [h3.1, h1.1]

/-- C3 (witness): the amended theorem applied to one concrete in-bounds
append. -/
theorem c3_append_bounds_witness :
    csW.cursor + [65, 66].length < csW.certBag.length ∧
    ((certStoreAppend csW [65, 66]).1.oob = csW.oob ∧
     (certStoreAppend csW [65, 66]).1.cursor = csW.cursor + [65, 66].length + 1 ∧
     (certStoreAppend csW [65, 66]).1.cursor ≤ csW.certBag.length ∧
     (certStoreAppend csW [65, 66]).1.certBag.length = csW.certBag.length) :=
  ⟨by decide, c3_append_bounds csW [65, 66] (by decide)⟩

/-- C4: every serial number the core places into a certificate TBS — the
device-certificate serial in `BarnacleInitialProvision` and the
alias-certificate serial in `BarnacleVerifyAgent` — has its first byte
with bit 7 clear (`serial[0] & 0x80 == 0`) and bit 0 set
(`serial[0] & 0x01 != 0`), regardless of the KDF output. -/
theorem c4_serial_sanity (L : Layout) (p : Prims) (s : BarnacleState)
    (sn : List Nat) (b : Nat)
    (hser : (BarnacleVerifyAgent L p s).usedSerial = some sn ∨
            (BarnacleInitialProvision L p s).usedSerial = some sn)
    (hb : sn.head? = some b) :
    b &&& 0x80 = 0 ∧ b &&& 0x01 = 1 := by
  rcases hser with h | h
  · rw [verify_usedSerial L p s sn h] at hb
    simp only [aliasSerialOf] at hb
    exact serialFromKdf_head p _ b hb
  · obtain ⟨k, hk⟩ := provision_usedSerial L p s sn h
    rw [hk] at hb
    exact serialFromKdf_head p k b hb

/-- C4 (witness): the theorem applied to the alias serial emitted on the
cold-cache boot `s0`. -/
theorem c4_serial_sanity_witness :
    (BarnacleVerifyAgent L0 P0 s0).usedSerial = some [1, 1, 27] ∧
    [1, 1, 27].head? = some 1 ∧
    (1 &&& 0x80 = 0 ∧ 1 &&& 0x01 = 1) :=
  ⟨by decide, by decide,
   c4_serial_sanity L0 P0 s0 [1, 1, 27] 1 (Or.inl (by decide)) (by decide)⟩

/-- C5: if `FwDeviceId.info.magic` already equals `BARNACLEMAGIC`,
`BarnacleInitialProvision` leaves `FwDeviceId` unchanged and never calls
`BarnacleFlashPages` on it; conversely any record it does hand to
`BarnacleFlashPages` for that region is written only when the magic
differed and carries a freshly derived identity whose magic is
`BARNACLEMAGIC` — so the device identity is written at most once. -/
theorem c5_device_identity_write_once (L : Layout) (p : Prims)
    (s : BarnacleState) :
    (s.fwDeviceId.magic = BARNACLEMAGIC →
      (BarnacleInitialProvision L p s).fwDeviceId = s.fwDeviceId ∧
      (BarnacleInitialProvision L p s).devIdWrite = none) ∧
    (∀ rec, (BarnacleInitialProvision L p s).devIdWrite = some rec →
      s.fwDeviceId.magic ≠ BARNACLEMAGIC ∧ rec.magic = BARNACLEMAGIC) := by
  constructor
  · intro hm
    unfold BarnacleInitialProvision
    dsimp only
    repeat' split
    all_goals simp_all
  · intro rec h
    unfold BarnacleInitialProvision at h
    dsimp only at h
    repeat' split at h
    all_goals simp_all
    all_goals rw [← h]

/-- C5 (witness): the theorem applied at a provisioned state (`s0`, magic
matches: nothing written) and at a cold state (`sCold`: the flashed
record carries the magic). -/
theorem c5_device_identity_write_once_witness :
    ((BarnacleInitialProvision L0 P0 s0).fwDeviceId = s0.fwDeviceId ∧
     (BarnacleInitialProvision L0 P0 s0).devIdWrite = none) ∧
    (sCold.fwDeviceId.magic ≠ BARNACLEMAGIC ∧ devIdW.magic = BARNACLEMAGIC) :=
  ⟨(c5_device_identity_write_once L0 P0 s0).1 (by decide),
   (c5_device_identity_write_once L0 P0 sCold).2 devIdW (by decide)⟩

/-- C6 (counterexample): at the warm state `sWarm` the claim's premise
holds — `FwCache.info.magic = BARNACLEMAGIC` and
`lastVersion ≥ AgentHdr.agent.version` — yet no rollback warning is
emitted and no new `FwCache` is derived or flashed, because the cached
header digest matches and the update branch (which contains the rollback
check) is never entered.  The return value is still `true`. -/
theorem c6_rollback_warning_counterexample :
    sWarm.fwCache.magic = BARNACLEMAGIC ∧
    sWarm.fwCache.lastVersion ≥ sWarm.agentHdr.agentVersion ∧
    (BarnacleVerifyAgent L0 P0 sWarm).warnedVersion = false ∧
    (BarnacleVerifyAgent L0 P0 sWarm).warnedIssued = false ∧
    (BarnacleVerifyAgent L0 P0 sWarm).flashed = false ∧
    (BarnacleVerifyAgent L0 P0 sWarm).result = true := by
  decide

/-- C6 (amended): when `FwCache.info.magic = BARNACLEMAGIC`, the header
digest differs from the cached `agentHdrDigest` (so the update branch
holding the rollback check runs), and the presented agent's version or
issuance does not exceed the cached one, `BarnacleVerifyAgent` emits the
corresponding rollback warning but does not fail: given that the
remaining checks pass, the PEM fits and the flash succeeds, it returns
`true`, and the new `FwCache` is still derived and flashed. -/
theorem c6_rollback_warning (L : Layout) (p : Prims) (s : BarnacleState)
    (hhdr : s.agentHdr.hdrMagic = BARNACLEMAGIC)
    (hver : s.agentHdr.hdrVersion ≤ BARNACLEVERSION)
    (haddr : s.agentCodeAddr = s.agentHdrAddr + s.agentHdr.hdrSize)
    (hcode : p.hashBytes (s.agentCode.take s.agentHdr.agentSize) =
      s.agentHdr.agentDigest)
    (hauth : ¬(authBootEnabled s.issuedCerts = true ∧
      p.verifyDigest (agentHdrDigestOf p s) s.agentHdr.sigR s.agentHdr.sigS
        s.issuedCerts.codeAuthPubKey = false))
    (hm : s.fwCache.magic = BARNACLEMAGIC)
    (hmiss : agentHdrDigestOf p s ≠ s.fwCache.agentHdrDigest)
    (hpem : (aliasPemOf p s).length ≤ L.cacheCertLen)
    (hfl : p.flashOk = true) :
    (BarnacleVerifyAgent L p s).result = true ∧
    (BarnacleVerifyAgent L p s).flashed = true ∧
    (s.fwCache.lastVersion ≥ s.agentHdr.agentVersion →
      (BarnacleVerifyAgent L p s).warnedVersion = true) ∧
    (s.fwCache.lastIssued ≥ s.agentHdr.agentIssued →
      (BarnacleVerifyAgent L p s).warnedIssued = true) := by
  simp only [agentHdrDigestOf] at hauth hmiss
  unfold BarnacleVerifyAgent
  dsimp only
  rw [if_neg (not_not_intro ⟨hhdr, hver⟩)]
  rw [if_neg (fun hne => hne haddr)]
  rw [if_neg (not_not_intro hcode)]
  rw [if_neg hauth]
  rw [if_pos (Or.inr hmiss)]
  rw [if_neg (by simpa using hpem)]
  rw [if_neg (not_not_intro hfl)]
  refine ⟨handoff_result _ _ _ _ _ _ _, handoff_flashed _ _ _ _ _ _ _,
    ?_, ?_⟩
  · intro hV
    rw [handoff_warnedV]
    simp [hm, hV]
  · intro hI
    rw [handoff_warnedI]
    simp [hm, hI]

/-- C6 (witness): the amended theorem applied at `sRoll`, whose cached
version and issuance (5) both exceed the presented agent's (2) while the
digest differs: both warnings fire, the boot succeeds, the cache is
flashed. -/
theorem c6_rollback_warning_witness :
    (sRoll.fwCache.magic = BARNACLEMAGIC ∧
     agentHdrDigestOf P0 sRoll ≠ sRoll.fwCache.agentHdrDigest ∧
     sRoll.fwCache.lastVersion ≥ sRoll.agentHdr.agentVersion ∧
     sRoll.fwCache.lastIssued ≥ sRoll.agentHdr.agentIssued) ∧
    ((BarnacleVerifyAgent L0 P0 sRoll).result = true ∧
     (BarnacleVerifyAgent L0 P0 sRoll).flashed = true ∧
     (sRoll.fwCache.lastVersion ≥ sRoll.agentHdr.agentVersion →
       (BarnacleVerifyAgent L0 P0 sRoll).warnedVersion = true) ∧
     (sRoll.fwCache.lastIssued ≥ sRoll.agentHdr.agentIssued →
       (BarnacleVerifyAgent L0 P0 sRoll).warnedIssued = true)) :=
  ⟨⟨by decide, by decide, by decide, by decide⟩,
   c6_rollback_warning L0 P0 sRoll (by decide) (by decide) (by decide)
     (by decide) (by decide) (by decide) (by decide) (by decide) rfl⟩

/-- C7: if `FwCache` is valid and its `agentHdrDigest` equals the digest
of `AgentHdr.s.sign`, `BarnacleVerifyAgent` performs no flash write and
leaves `FwCache` unchanged; consequently a second run on the resulting
persistent state is the very same computation, so two consecutive boots
produce identical outcomes — in particular byte-identical `CertStore`
contents. -/
theorem c7_boot_idempotent (L : Layout) (p : Prims) (s : BarnacleState)
    (hm : s.fwCache.magic = BARNACLEMAGIC)
    (hd : agentHdrDigestOf p s = s.fwCache.agentHdrDigest) :
    (BarnacleVerifyAgent L p s).flashed = false ∧
    (BarnacleVerifyAgent L p s).fwCache = s.fwCache ∧
    BarnacleVerifyAgent L p
      { s with fwCache := (BarnacleVerifyAgent L p s).fwCache } =
      BarnacleVerifyAgent L p s := by
  have h1 : (BarnacleVerifyAgent L p s).flashed = false ∧
      (BarnacleVerifyAgent L p s).fwCache = s.fwCache := by
    unfold BarnacleVerifyAgent
    dsimp only
    repeat' split
    all_goals first
      | exact ⟨rfl, rfl⟩
      | exact ⟨handoff_flashed _ _ _ _ _ _ _, handoff_fwCache _ _ _ _ _ _ _⟩
      | simp_all [agentHdrDigestOf]
  refine ⟨h1.1, h1.2, ?_⟩
  rw [h1.2]

/-- C7 (witness): the theorem applied at the warm state `sWarm`. -/
theorem c7_boot_idempotent_witness :
    (sWarm.fwCache.magic = BARNACLEMAGIC ∧
     agentHdrDigestOf P0 sWarm = sWarm.fwCache.agentHdrDigest) ∧
    ((BarnacleVerifyAgent L0 P0 sWarm).flashed = false ∧
     (BarnacleVerifyAgent L0 P0 sWarm).fwCache = sWarm.fwCache ∧
     BarnacleVerifyAgent L0 P0
       { sWarm with fwCache := (BarnacleVerifyAgent L0 P0 sWarm).fwCache } =
       BarnacleVerifyAgent L0 P0 sWarm) :=
  ⟨⟨by decide, by decide⟩,
   c7_boot_idempotent L0 P0 sWarm (by decide) (by decide)⟩

/-- C8: the v3 extensions block of each certificate type matches the
spec's extension-composition table: the device certificate carries
keyUsage and basicConstraints (CA=true, pathLen=1) and carries
authorityKeyIdentifier exactly when an external root public key is
supplied (`RootKeyPub != NULL`); the root certificate carries keyUsage
and basicConstraints (CA=true, pathLen=2); the alias certificate carries
keyUsage, extendedKeyUsage clientAuth, authorityKeyIdentifier over SHA-1
of the exported DevID public key, and the RIoT extension — and no
basicConstraints. -/
theorem c8_extension_composition (p : Prims) (td : RIOT_X509_TBS_DATA)
    (devPub rootPub aliasPub fwid : List Nat) :
    extBlock (X509GetDeviceCertTBS p td devPub (some rootPub)) =
      [DerOp.startSeqOrSet true] ++ specKeyUsageExt ++
        specBasicConstraintsExt 1 ++ specAuthKeyIdExt (p.sha1Bytes rootPub) ++
        [DerOp.popNesting] ∧
    extBlock (X509GetDeviceCertTBS p td devPub none) =
      [DerOp.startSeqOrSet true] ++ specKeyUsageExt ++
        specBasicConstraintsExt 1 ++ [DerOp.popNesting] ∧
    extBlock (X509GetRootCertTBS p td rootPub) =
      [DerOp.startSeqOrSet true] ++ specKeyUsageExt ++
        specBasicConstraintsExt 2 ++ [DerOp.popNesting] ∧
    extBlock (X509GetAliasCertTBS p td aliasPub devPub fwid) =
      [DerOp.startSeqOrSet true] ++ specKeyUsageExt ++
        specExtKeyUsageClientAuth ++
        specAuthKeyIdExt (p.sha1Bytes (p.exportPub devPub)) ++
        specRiotExt (p.exportPub devPub) fwid ++ [DerOp.popNesting] ∧
    mentionsBasicConstraints
      (extBlock (X509GetAliasCertTBS p td aliasPub devPub fwid)) = false :=
  ⟨rfl, rfl, rfl, rfl, rfl⟩

/-- C9: in `X509GetAliasCertTBS`, a caller-supplied subject common name
`"*"` is replaced by the base64 encoding of the first 16 bytes of the
SHA-256 digest of the exported DevID public key; any subject common name
whose first character is not `*` is placed into the TBS unchanged.  (The
subject CN is the second CN of the trace; the first is the issuer's.) -/
theorem c9_alias_subject_cn (p : Prims) (td : RIOT_X509_TBS_DATA)
    (aliasPub devPub fwid : List Nat) :
    (cnList (X509GetAliasCertTBS p { td with subjectCommon := "*" }
        aliasPub devPub fwid)).get? 1 =
      some (p.base64 ((p.hashBytes (p.exportPub devPub)).take 16)) ∧
    (∀ cn : String, cn.data.head? ≠ some '*' →
      (cnList (X509GetAliasCertTBS p { td with subjectCommon := cn }
          aliasPub devPub fwid)).get? 1 = some cn) := by
  constructor
  · rfl
  · intro cn h
    unfold X509GetAliasCertTBS
    have hstar : firstCharIsStar cn = false := by
      unfold firstCharIsStar
      cases hd : cn.data with
      | nil => rfl
      | cons c rest =>
        simp only [hd, List.head?] at h
        simp only [decide_eq_false_iff_not]
        intro hc
        exact h (by rw [hc])
    simp only [hstar, if_neg]
    rfl

/-- C9 (witness): the theorem's second part applied to the concrete
subject CN `"Agent"`. -/
theorem c9_alias_subject_cn_witness :
    "Agent".data.head? ≠ some '*' ∧
    (cnList (X509GetAliasCertTBS P0 { tdW with subjectCommon := "Agent" }
        [1] [2] [3])).get? 1 = some "Agent" :=
  ⟨by decide,
   (c9_alias_subject_cn P0 tdW [1] [2] [3]).2 "Agent" (by decide)⟩

/-- C10: for `AgentHdr` at address `a` and `IssuedCerts` at address `i`
(32-bit, `a ≤ i`), `BarnacleGetDfuStr` returns
`"@Barnacle /0x" ++ hex8 a ++ "/"` followed by the comma-terminated
groups `NN*004Kf,` and the final `01*04Ka` (WRITELOCK set) or `01*04Kg`;
each group holds at most 99 pages and the groups sum to the number of
4K pages between the two records. -/
theorem c10_dfu_string (a i : Nat) (w : Bool) (ha : a ≤ i)
    (hi : i < 2 ^ 32) :
    BarnacleGetDfuStr a i w =
      "@Barnacle /0x" ++ hex8 a ++ "/"
        ++ String.join ((dfuGroups ((i - a) / 4096)).map fun it =>
            dec2 it ++ "*004Kf,")
        ++ "01*04K" ++ (if w then "a" else "g") ∧
    (dfuGroups ((i - a) / 4096)).sum = (i - a) / 4096 ∧
    (∀ g ∈ dfuGroups ((i - a) / 4096), g ≤ 99) := by
  have h32 : (2 : Nat) ^ 32 = 4294967296 := by norm_num
  have harea : (i + 2 ^ 32 - a % 2 ^ 32) % 2 ^ 32 = i - a := by
    rw [h32] at hi ⊢
    omega
  refine ⟨?_, dfuGroups_sum _, fun g hg => (dfuGroups_bounds _ g hg).2⟩
  unfold BarnacleGetDfuStr
  rw [harea]

/-- C10 (witness): the theorem applied at base 0 with three agent pages
and no write lock; the string is
`"@Barnacle /0x00000000/03*004Kf,01*04Kg"`. -/
theorem c10_dfu_string_witness :
    (0 ≤ 12288 ∧ 12288 < 2 ^ 32) ∧
    (BarnacleGetDfuStr 0 12288 false =
      "@Barnacle /0x" ++ hex8 0 ++ "/"
        ++ String.join ((dfuGroups ((12288 - 0) / 4096)).map fun it =>
            dec2 it ++ "*004Kf,")
        ++ "01*04K" ++ (if false then "a" else "g") ∧
     (dfuGroups ((12288 - 0) / 4096)).sum = (12288 - 0) / 4096 ∧
     (∀ g ∈ dfuGroups ((12288 - 0) / 4096), g ≤ 99)) :=
  ⟨⟨by decide, by norm_num⟩,
   c10_dfu_string 0 12288 false (by decide) (by norm_num)⟩
